import Mathlib

/-!
Shallow embedding of the Sol-Swap DEX program (src/dex.rs) and proofs of
its specified properties.

Bytes are modelled as natural numbers (values below 256 where
well-formedness matters), u64 quantities as natural numbers below 2^64,
and the i64 timestamp as an integer in the signed 64-bit range.
Serialization is little-endian over the fields in declaration order,
mirroring the raw-memory reinterpretation the Rust code performs via
`as_ref` and the pointer cast in `unpack_from_slice`.
-/

/-- An opaque 32-byte principal, as in solana_program's Pubkey. -/
structure Pubkey where
  bytes : List Nat
deriving DecidableEq, Repr

/-- The all-zero public key, Pubkey::default in the source. -/
def Pubkey.default : Pubkey := ⟨List.replicate 32 0⟩

/-- ProgramError: the host's generic error channel (only the variants the
program touches are modelled). -/
inductive ProgramError where
  | Custom : Nat → ProgramError
  | InvalidArgument : ProgramError
  | AccountNotRentExempt : ProgramError
  | InsufficientFunds : ProgramError
deriving DecidableEq, Repr

/-- DexError from src/dex.rs lines 28-33. -/
inductive DexError where
  | InvalidInstruction : DexError
  | TradeAlreadyExist : DexError
  | TradeNotFound : DexError
  | InsufficientFunds : DexError
deriving DecidableEq, Repr

/-- The `repr(u8)` discriminant of each DexError variant (`e as u32`). -/
def DexError.discriminant : DexError → Nat
  | .InvalidInstruction => 0
  | .TradeAlreadyExist => 1
  | .TradeNotFound => 2
  | .InsufficientFunds => 3

/-- From<DexError> for ProgramError, src/dex.rs lines 35-39:
`ProgramError::Custom(e as u32)`. -/
def DexError.toProgramError (e : DexError) : ProgramError :=
  ProgramError.Custom e.discriminant

/-- MINIMUM_TRADE_AMOUNT constant, src/dex.rs line 46. -/
def MINIMUM_TRADE_AMOUNT : Nat := 100

/-- The Trade record, src/dex.rs lines 52-59. -/
structure Trade where
  maker_pubkey : Pubkey
  taker_amount : Nat
  maker_amount : Nat
  taker_token_pubkey : Pubkey
  maker_token_pubkey : Pubkey
  trade_timestamp : Int
deriving DecidableEq, Repr

/-- Trade::new, src/dex.rs lines 62-78. -/
def Trade.new (maker_pubkey : Pubkey) (taker_amount maker_amount : Nat)
    (taker_token_pubkey maker_token_pubkey : Pubkey)
    (trade_timestamp : Int) : Trade :=
  { maker_pubkey := maker_pubkey
    taker_amount := taker_amount
    maker_amount := maker_amount
    taker_token_pubkey := taker_token_pubkey
    maker_token_pubkey := maker_token_pubkey
    trade_timestamp := trade_timestamp }

/-- Trade::LEN = size_of::<Trade>(), src/dex.rs line 82.  The struct's
fields occupy 32 + 8 + 8 + 32 + 32 + 8 bytes with no padding (every u64
field falls on an 8-aligned offset and the total is a multiple of 8). -/
def Trade.LEN : Nat := 120

/-- Little-endian encoding of a natural number into `k` bytes. -/
def natToBytesLE : Nat → Nat → List Nat
  | 0, _ => []
  | k + 1, n => n % 256 :: natToBytesLE k (n / 256)

/-- Little-endian decoding of a byte list into a natural number. -/
def bytesToNatLE : List Nat → Nat
  | [] => 0
  | b :: bs => b + 256 * bytesToNatLE bs

/-- Two's-complement little-endian encoding of an i64. -/
def i64ToBytes (t : Int) : List Nat :=
  natToBytesLE 8 (t % (2 ^ 64 : Int)).toNat

/-- Two's-complement little-endian decoding of an i64. -/
def i64FromBytes (bs : List Nat) : Int :=
  let n := bytesToNatLE bs
  if n < 2 ^ 63 then (n : Int) else (n : Int) - 2 ^ 64

/-- Trade::pack_into_slice, src/dex.rs lines 84-87: the record's bytes,
fields in declaration order, copied verbatim into the output. -/
def Trade.pack_into_slice (t : Trade) : List Nat :=
  t.maker_pubkey.bytes ++ natToBytesLE 8 t.taker_amount
    ++ natToBytesLE 8 t.maker_amount ++ t.taker_token_pubkey.bytes
    ++ t.maker_token_pubkey.bytes ++ i64ToBytes t.trade_timestamp

/-- Trade::unpack_from_slice, src/dex.rs lines 89-95: reject any input
whose length differs from Trade::LEN, otherwise reinterpret the block as
the typed record. -/
def Trade.unpack_from_slice (input : List Nat) : Except ProgramError Trade :=
  if input.length ≠ Trade.LEN then
    .error ProgramError.InvalidArgument
  else
    .ok { maker_pubkey := ⟨input.take 32⟩
          taker_amount := bytesToNatLE ((input.drop 32).take 8)
          maker_amount := bytesToNatLE ((input.drop 40).take 8)
          taker_token_pubkey := ⟨(input.drop 48).take 32⟩
          maker_token_pubkey := ⟨(input.drop 80).take 32⟩
          trade_timestamp := i64FromBytes ((input.drop 112).take 8) }

/-- IsInitialized for Trade, src/dex.rs lines 98-102. -/
def Trade.is_initialized (t : Trade) : Bool :=
  decide (t.maker_pubkey ≠ Pubkey.default)

/-- Default for Trade, src/dex.rs lines 104-115. -/
def Trade.default : Trade :=
  { maker_pubkey := Pubkey.default
    taker_amount := 0
    maker_amount := 0
    taker_token_pubkey := Pubkey.default
    maker_token_pubkey := Pubkey.default
    trade_timestamp := 0 }

/-- Well-formedness of a Trade value as a Rust value: pubkeys are 32
bytes, the u64 fields fit in 64 bits, the timestamp fits in i64. -/
def Trade.WF (t : Trade) : Prop :=
  t.maker_pubkey.bytes.length = 32 ∧
  t.taker_token_pubkey.bytes.length = 32 ∧
  t.maker_token_pubkey.bytes.length = 32 ∧
  t.taker_amount < 2 ^ 64 ∧
  t.maker_amount < 2 ^ 64 ∧
  -(2 ^ 63 : Int) ≤ t.trade_timestamp ∧
  t.trade_timestamp < 2 ^ 63

instance (t : Trade) : Decidable t.WF := by
  unfold Trade.WF
  infer_instance

lemma length_natToBytesLE (k n : Nat) : (natToBytesLE k n).length = k := by
  induction k generalizing n with
  | zero => simp [natToBytesLE]
  | succ k ih => simp [natToBytesLE, ih]

lemma bytesToNatLE_natToBytesLE (k n : Nat) (h : n < 256 ^ k) :
    bytesToNatLE (natToBytesLE k n) = n := by
  induction k generalizing n with
  | zero =>
    simp only [pow_zero, Nat.lt_one_iff] at h
    simp [natToBytesLE, bytesToNatLE, h]
  | succ k ih =>
    have hdiv : n / 256 < 256 ^ k := by
      rw [Nat.div_lt_iff_lt_mul (by norm_num)]
      calc n < 256 ^ (k + 1) := h
        _ = 256 ^ k * 256 := by ring
    simp only [natToBytesLE, bytesToNatLE, ih (n / 256) hdiv]
    omega

lemma i64FromBytes_i64ToBytes (t : Int) (h0 : -(2 ^ 63 : Int) ≤ t)
    (h1 : t < 2 ^ 63) : i64FromBytes (i64ToBytes t) = t := by
  unfold i64ToBytes i64FromBytes
  have hm0 : (0 : Int) ≤ t % (2 ^ 64 : Int) := Int.emod_nonneg t (by norm_num)
  have hm1 : t % (2 ^ 64 : Int) < 2 ^ 64 := Int.emod_lt_of_pos t (by norm_num)
  have hlt : (t % (2 ^ 64 : Int)).toNat < 256 ^ 8 := by omega
  rw [bytesToNatLE_natToBytesLE 8 _ hlt]
  dsimp only
  split <;> omega

lemma take_append_of_length {k : Nat} (a rest : List Nat)
    (h : a.length = k) : (a ++ rest).take k = a := by
  subst h
  simp

lemma drop_append_of_length {k : Nat} (a rest : List Nat)
    (h : a.length = k) : (a ++ rest).drop k = rest := by
  subst h
  simp

lemma drop_append_add {k m : Nat} (a rest : List Nat)
    (h : a.length = k) : (a ++ rest).drop (k + m) = rest.drop m := by
  subst h
  simp [List.drop_append_eq_append_drop]

lemma length_i64ToBytes (t : Int) : (i64ToBytes t).length = 8 := by
  simp [i64ToBytes, length_natToBytesLE]

lemma drop_append_ge (a rest : List Nat) (k : Nat) (h : a.length ≤ k) :
    (a ++ rest).drop k = rest.drop (k - a.length) := by
  simp [List.drop_append_eq_append_drop, List.drop_eq_nil_of_le h]

lemma bytesToNatLE_natToBytesLE8 (n : Nat) (h : n < 2 ^ 64) :
    bytesToNatLE (natToBytesLE 8 n) = n :=
  bytesToNatLE_natToBytesLE 8 n (by norm_num at h ⊢; omega)

/-- C1: encoding a well-formed Trade record with pack_into_slice and
decoding the bytes with unpack_from_slice returns Ok of the original
record. -/
theorem trade_pack_unpack_roundtrip (t : Trade) (h : t.WF) :
    Trade.unpack_from_slice t.pack_into_slice = .ok t := by
  obtain ⟨⟨ma⟩, ta, mam, ⟨tt⟩, ⟨mt⟩, ts⟩ := t
  obtain ⟨h1, h2, h3, h4, h5, h6, h7⟩ := h
  simp only [] at h1 h2 h3 h4 h5 h6 h7
  unfold Trade.pack_into_slice Trade.unpack_from_slice
  simp only [List.append_assoc]
  simp [Trade.LEN, length_natToBytesLE, length_i64ToBytes, h1, h2, h3,
    drop_append_ge, take_append_of_length, drop_append_of_length,
    bytesToNatLE_natToBytesLE8 _ h4, bytesToNatLE_natToBytesLE8 _ h5,
    i64FromBytes_i64ToBytes ts h6 h7, List.take_of_length_le]

/-- Witness for C1: the round-trip at a concrete well-formed record. -/
theorem trade_pack_unpack_roundtrip_witness :
    (Trade.new ⟨List.replicate 32 1⟩ 300 500 ⟨List.replicate 32 2⟩
      ⟨List.replicate 32 3⟩ 99).WF ∧
    Trade.unpack_from_slice
      (Trade.pack_into_slice (Trade.new ⟨List.replicate 32 1⟩ 300 500
        ⟨List.replicate 32 2⟩ ⟨List.replicate 32 3⟩ 99)) =
      .ok (Trade.new ⟨List.replicate 32 1⟩ 300 500 ⟨List.replicate 32 2⟩
        ⟨List.replicate 32 3⟩ 99) :=
  ⟨by decide, trade_pack_unpack_roundtrip _ (by decide)⟩

/-- C2: unpack_from_slice fails (with InvalidArgument) exactly when the
input length differs from Trade::LEN, and succeeds exactly when the
length is Trade::LEN; it never partially parses. -/
theorem unpack_from_slice_length_check (input : List Nat) :
    (Trade.unpack_from_slice input = .error ProgramError.InvalidArgument ↔
      input.length ≠ Trade.LEN) ∧
    ((∃ t, Trade.unpack_from_slice input = .ok t) ↔
      input.length = Trade.LEN) := by
  unfold Trade.unpack_from_slice
  by_cases h : input.length = Trade.LEN <;> simp [h]

/-- C6: is_initialized is true exactly when maker_pubkey differs from the
all-zero key, and the default record is all-zero and uninitialized. -/
theorem trade_occupancy_spec :
    (∀ t : Trade, t.is_initialized = true ↔ t.maker_pubkey ≠ Pubkey.default) ∧
    Pubkey.default.bytes = List.replicate 32 0 ∧
    Trade.default.maker_pubkey = Pubkey.default ∧
    Trade.default.taker_amount = 0 ∧
    Trade.default.maker_amount = 0 ∧
    Trade.default.taker_token_pubkey = Pubkey.default ∧
    Trade.default.maker_token_pubkey = Pubkey.default ∧
    Trade.default.trade_timestamp = 0 ∧
    Trade.default.is_initialized = false := by
  refine ⟨?_, rfl, rfl, rfl, rfl, rfl, rfl, rfl, ?_⟩
  · intro t
    simp [Trade.is_initialized]
  · simp [Trade.is_initialized, Trade.default]

/-- C7: Trade::LEN is the exact sum of the field widths (120 bytes, no
padding), packing a well-formed record emits exactly LEN bytes, and
unpacking accepts only blocks of exactly LEN bytes. -/
theorem trade_len_spec :
    Trade.LEN = 32 + 8 + 8 + 32 + 32 + 8 ∧
    (∀ t : Trade, t.WF → t.pack_into_slice.length = Trade.LEN) ∧
    (∀ input : List Nat, input.length ≠ Trade.LEN →
      Trade.unpack_from_slice input = .error ProgramError.InvalidArgument) := by
  refine ⟨rfl, ?_, ?_⟩
  · intro t h
    obtain ⟨h1, h2, h3, _, _, _, _⟩ := h
    simp [Trade.pack_into_slice, Trade.LEN, length_natToBytesLE,
      length_i64ToBytes, h1, h2, h3]
  · intro input h
    simp [Trade.unpack_from_slice, h]

/-- Witness for C7: pack length and strict length rejection at concrete
inputs. -/
theorem trade_len_spec_witness :
    Trade.default.pack_into_slice.length = Trade.LEN ∧
    Trade.unpack_from_slice [] = .error ProgramError.InvalidArgument :=
  ⟨trade_len_spec.2.1 Trade.default (by decide),
   trade_len_spec.2.2 [] (by decide)⟩

/-- C10: the DexError to ProgramError conversion maps each variant to
Custom of its discriminant and is injective. -/
theorem dexError_conversion_spec :
    DexError.toProgramError .InvalidInstruction = .Custom 0 ∧
    DexError.toProgramError .TradeAlreadyExist = .Custom 1 ∧
    DexError.toProgramError .TradeNotFound = .Custom 2 ∧
    DexError.toProgramError .InsufficientFunds = .Custom 3 ∧
    Function.Injective DexError.toProgramError := by
  refine ⟨rfl, rfl, rfl, rfl, ?_⟩
  intro a b h
  cases a <;> cases b <;>
    simp_all [DexError.toProgramError, DexError.discriminant]

/-- The rent-exemption oracle: Rent::is_exempt queried with the account's
lamports and data length (src/dex.rs line 145). -/
structure Rent where
  is_exempt : Nat → Nat → Bool

/-- CreateTradeParams, src/dex.rs lines 127-132. -/
structure CreateTradeParams where
  taker_amount : Nat
  maker_amount : Nat
  taker_token_pubkey : Pubkey
  maker_token_pubkey : Pubkey

/-- The mutable state of the accounts passed to create_trade, in the
positional order of src/dex.rs lines 139-141: the escrow-slot storage
account (lamports and data), the taker's asset account, the maker's
asset-holding account supplying the deposit, and the escrow holding
account receiving it. -/
structure CreateAccounts where
  trade_lamports : Nat
  trade_data : List Nat
  taker_token_balance : Nat
  maker_source_balance : Nat
  escrow_holding_balance : Nat
deriving DecidableEq, Repr

/-- create_trade, src/dex.rs lines 134-151: verify rent exemption, then
reject an already-funded slot.  The source file is truncated at line 151;
the remainder is modelled from the spec: Modelled from the spec (section
4.2): both amounts must reach MINIMUM_TRADE_AMOUNT (a caller input
error), then the deposit of maker_amount moves from the maker's account
into the escrow holding account (failing with no state change if the
maker cannot cover it), and a fully-populated record is written. -/
def create_trade (rent : Rent) (accounts : CreateAccounts)
    (params : CreateTradeParams) (maker : Pubkey) (now : Int) :
    Except ProgramError Unit × CreateAccounts :=
  if ¬ rent.is_exempt accounts.trade_lamports accounts.trade_data.length then
    (.error ProgramError.AccountNotRentExempt, accounts)
  else if accounts.trade_lamports > 0 then
    (.error DexError.TradeAlreadyExist.toProgramError, accounts)
  else if params.taker_amount < MINIMUM_TRADE_AMOUNT ∨
      params.maker_amount < MINIMUM_TRADE_AMOUNT then
    (.error ProgramError.InvalidArgument, accounts)
  else if accounts.maker_source_balance < params.maker_amount then
    (.error ProgramError.InsufficientFunds, accounts)
  else
    (.ok (), { accounts with
      maker_source_balance := accounts.maker_source_balance - params.maker_amount
      escrow_holding_balance := accounts.escrow_holding_balance + params.maker_amount
      trade_data := (Trade.new maker params.taker_amount params.maker_amount
        params.taker_token_pubkey params.maker_token_pubkey
        now).pack_into_slice })

/-- C3: when the rent-exemption check passes but the storage account holds
a positive balance, create_trade fails with TradeAlreadyExist and mutates
no account. -/
theorem create_trade_already_exist (rent : Rent) (accounts : CreateAccounts)
    (params : CreateTradeParams) (maker : Pubkey) (now : Int)
    (hrent : rent.is_exempt accounts.trade_lamports
      accounts.trade_data.length = true)
    (hbal : 0 < accounts.trade_lamports) :
    create_trade rent accounts params maker now =
      (.error DexError.TradeAlreadyExist.toProgramError, accounts) := by
  simp [create_trade, hrent, hbal]

/-- Witness for C3: a rent-exempt slot holding 1 lamport is rejected with
TradeAlreadyExist with the accounts unchanged. -/
theorem create_trade_already_exist_witness :
    (Rent.mk fun _ _ => true).is_exempt 1 0 = true ∧
    0 < 1 ∧
    create_trade (Rent.mk fun _ _ => true) (CreateAccounts.mk 1 [] 0 0 0)
      (CreateTradeParams.mk 300 500 Pubkey.default Pubkey.default)
      Pubkey.default 0 =
      (.error DexError.TradeAlreadyExist.toProgramError,
        CreateAccounts.mk 1 [] 0 0 0) :=
  ⟨rfl, by decide,
    create_trade_already_exist _ _ _ _ _ rfl (by decide)⟩

/-- C4: when the storage account fails the rent-exemption check,
create_trade fails with AccountNotRentExempt and mutates nothing — for
every balance, so the rent check precedes the occupancy check. -/
theorem create_trade_rent_check_first (rent : Rent)
    (accounts : CreateAccounts) (params : CreateTradeParams) (maker : Pubkey)
    (now : Int)
    (hrent : rent.is_exempt accounts.trade_lamports
      accounts.trade_data.length = false) :
    create_trade rent accounts params maker now =
      (.error ProgramError.AccountNotRentExempt, accounts) := by
  simp [create_trade, hrent]

/-- Witness for C4: a non-exempt slot that is also already funded still
fails with AccountNotRentExempt, not TradeAlreadyExist. -/
theorem create_trade_rent_check_first_witness :
    (Rent.mk fun _ _ => false).is_exempt 5 0 = false ∧
    create_trade (Rent.mk fun _ _ => false) (CreateAccounts.mk 5 [] 0 0 0)
      (CreateTradeParams.mk 300 500 Pubkey.default Pubkey.default)
      Pubkey.default 0 =
      (.error ProgramError.AccountNotRentExempt,
        CreateAccounts.mk 5 [] 0 0 0) :=
  ⟨rfl, create_trade_rent_check_first _ _ _ _ _ rfl⟩

/-- C5: a creation request with either amount below MINIMUM_TRADE_AMOUNT
fails with an error before any transfer occurs and before any record is
written (the returned account state is the input state, on every path). -/
theorem create_trade_minimum_amount (rent : Rent) (accounts : CreateAccounts)
    (params : CreateTradeParams) (maker : Pubkey) (now : Int)
    (h : params.taker_amount < MINIMUM_TRADE_AMOUNT ∨
      params.maker_amount < MINIMUM_TRADE_AMOUNT) :
    ∃ e, create_trade rent accounts params maker now =
      (.error e, accounts) := by
  unfold create_trade
  repeat' split
  all_goals exact ⟨_, rfl⟩

/-- Witness for C5: maker_amount = 99 on an otherwise valid request fails
with the accounts untouched. -/
theorem create_trade_minimum_amount_witness :
    99 < MINIMUM_TRADE_AMOUNT ∧
    ∃ e, create_trade (Rent.mk fun _ _ => true)
      (CreateAccounts.mk 0 [] 0 1000 0)
      (CreateTradeParams.mk 300 99 Pubkey.default Pubkey.default)
      Pubkey.default 0 =
      (.error e, CreateAccounts.mk 0 [] 0 1000 0) :=
  ⟨by decide,
    create_trade_minimum_amount _ _ _ _ _ (Or.inr (by decide))⟩

/-- The mutable state of the accounts involved in trade completion: the
escrow-slot storage account (lamports and data), the taker's paying asset
account, the maker's receiving asset account, the escrow holding account,
and the taker's receiving asset account. -/
structure CompleteAccounts where
  trade_lamports : Nat
  trade_data : List Nat
  taker_paying_balance : Nat
  maker_receiving_balance : Nat
  escrow_holding_balance : Nat
  taker_receiving_balance : Nat
deriving DecidableEq, Repr

/-- Modelled from the spec: the CompleteTrade handler's body is missing
from src/dex.rs (the file is truncated at line 151), so this definition
follows spec sections 4.3 and 8: decode the stored record; fail with
TradeNotFound on an unoccupied slot; fail with InsufficientFunds when the
taker cannot cover taker_amount; fail on an asset-account reference
mismatch; otherwise the taker pays taker_amount into the maker's
receiving account, the escrow releases maker_amount to the taker's
receiving account, the record is reset to its default value, and the
storage account's durability deposit is returned. -/
def complete_trade (accounts : CompleteAccounts)
    (supplied_taker_asset supplied_maker_asset : Pubkey) :
    Except ProgramError Unit × CompleteAccounts :=
  match Trade.unpack_from_slice accounts.trade_data with
  | .error e => (.error e, accounts)
  | .ok t =>
    if ¬ t.is_initialized then
      (.error DexError.TradeNotFound.toProgramError, accounts)
    else if accounts.taker_paying_balance < t.taker_amount then
      (.error DexError.InsufficientFunds.toProgramError, accounts)
    else if supplied_taker_asset ≠ t.taker_token_pubkey ∨
        supplied_maker_asset ≠ t.maker_token_pubkey then
      (.error ProgramError.InvalidArgument, accounts)
    else
      (.ok (), { trade_lamports := 0
                 trade_data := Trade.default.pack_into_slice
                 taker_paying_balance :=
                   accounts.taker_paying_balance - t.taker_amount
                 maker_receiving_balance :=
                   accounts.maker_receiving_balance + t.taker_amount
                 escrow_holding_balance :=
                   accounts.escrow_holding_balance - t.maker_amount
                 taker_receiving_balance :=
                   accounts.taker_receiving_balance + t.maker_amount })

/-- C8: every completion either fails with every account unchanged, or
succeeds with both transfer legs applied together and the record reset to
the default value; no state with only one leg completed is reachable. -/
theorem complete_trade_atomic (accounts : CompleteAccounts)
    (supplied_taker_asset supplied_maker_asset : Pubkey) :
    (∃ e, complete_trade accounts supplied_taker_asset supplied_maker_asset =
      (.error e, accounts)) ∨
    (∃ t, Trade.unpack_from_slice accounts.trade_data = .ok t ∧
      complete_trade accounts supplied_taker_asset supplied_maker_asset =
        (.ok (), { trade_lamports := 0
                   trade_data := Trade.default.pack_into_slice
                   taker_paying_balance :=
                     accounts.taker_paying_balance - t.taker_amount
                   maker_receiving_balance :=
                     accounts.maker_receiving_balance + t.taker_amount
                   escrow_holding_balance :=
                     accounts.escrow_holding_balance - t.maker_amount
                   taker_receiving_balance :=
                     accounts.taker_receiving_balance + t.maker_amount })) := by
  rcases hu : Trade.unpack_from_slice accounts.trade_data with e | t
  · exact Or.inl ⟨e, by simp [complete_trade, hu]⟩
  · simp only [complete_trade, hu]
    repeat' split
    · exact Or.inl ⟨_, rfl⟩
    · exact Or.inl ⟨_, rfl⟩
    · exact Or.inl ⟨_, rfl⟩
    · exact Or.inr ⟨t, rfl, rfl⟩

/-- C9: completing against a slot whose stored record is not occupied
fails with TradeNotFound and leaves every account unchanged. -/
theorem complete_trade_not_found (accounts : CompleteAccounts)
    (supplied_taker_asset supplied_maker_asset : Pubkey) (t : Trade)
    (hok : Trade.unpack_from_slice accounts.trade_data = .ok t)
    (huninit : t.is_initialized = false) :
    complete_trade accounts supplied_taker_asset supplied_maker_asset =
      (.error DexError.TradeNotFound.toProgramError, accounts) := by
  simp [complete_trade, hok, huninit]

/-- Witness for C9: completion against a slot storing the default (empty)
record fails with TradeNotFound and changes nothing. -/
theorem complete_trade_not_found_witness :
    Trade.unpack_from_slice
      (CompleteAccounts.mk 10 Trade.default.pack_into_slice 500 0 300 0).trade_data =
      .ok Trade.default ∧
    Trade.default.is_initialized = false ∧
    complete_trade
      (CompleteAccounts.mk 10 Trade.default.pack_into_slice 500 0 300 0)
      Pubkey.default Pubkey.default =
      (.error DexError.TradeNotFound.toProgramError,
        CompleteAccounts.mk 10 Trade.default.pack_into_slice 500 0 300 0) :=
  ⟨rfl, by decide,
    complete_trade_not_found _ _ _ Trade.default rfl (by decide)⟩
